import Mathlib

/-
Verification development for the SRx server SKI cache (server/ski_cache.c).

The embedding models the C data structures as Lean structures:
singly linked lists become Lean lists, the dense 65536-slot as2 pointer
array of a cache node becomes a sparse association list (an absent key is a
NULL slot, matching the intended zero-initialised array), and the raw byte
stream handed to ski_registerUpdate becomes a total function from byte
offsets to byte values (the C function receives only a pointer and no
buffer length, so reads past the caller's buffer are reads of adjacent
memory; the embedding makes that memory explicit).

Notes on systematic slips in the C source that the embedding normalises:
every memset call in the file swaps the size and value arguments
(memset(p, size, 0) writes zero bytes), so the freshly malloc'd structures
are never actually zeroed; the embedding models the evident intended
zero-initialisation (counter 0, NULL next/cacheUID pointers), since
uninitialised memory has no deterministic semantics.  Likewise
___ski_createCacheUID discards the malloc result; the embedding models the
intended allocation.  The raw (un-byteswapped) u_int16_t struct reads in
ski_registerUpdate are modelled for a little-endian host, the platform the
server targets; the big-endian reads via ntohs/ntohl are modelled as such.

Types external to the repository (srxcryptoapi.h, srx_identifier.h) are
modelled from the spec where marked.
-/

/-- One byte read from memory; the C code only ever reads u_int8_t cells. -/
def byteAt (mem : Nat → Nat) (i : Nat) : Nat := mem i % 256

/-- Big-endian 16-bit read, the semantics of ntohs on a wire field. -/
def be16 (mem : Nat → Nat) (i : Nat) : Nat := byteAt mem i * 256 + byteAt mem (i + 1)

/-- Raw host-order 16-bit read of a u_int16_t struct field without ntohs,
on the little-endian host the server runs on. -/
def le16 (mem : Nat → Nat) (i : Nat) : Nat := byteAt mem i + 256 * byteAt mem (i + 1)

/-- Big-endian 32-bit read, the semantics of ntohl on a wire field. -/
def be32 (mem : Nat → Nat) (i : Nat) : Nat :=
  ((byteAt mem i * 256 + byteAt mem (i + 1)) * 256 + byteAt mem (i + 2)) * 256
    + byteAt mem (i + 3)

/-- Reduction of an integer into a u_int16_t, the effect of assigning to the
u_int16_t remainder variable in ski_registerUpdate. -/
def u16ofInt (x : Int) : Nat := (Int.emod x 65536).toNat

/-- The C memcmp over byte arrays, compared pairwise from the left; the SKI
fields compared in this file are always SKI_LENGTH = 20 bytes long. -/
def memcmpBytes : List Nat → List Nat → Int
  | [], _ => 0
  | _, [] => 0
  | a :: as, b :: bs => if a < b then -1 else if b < a then 1 else memcmpBytes as bs

/-- Modelled from the spec: SRxUpdateID from shared/srx_identifier.h is not
under src/.  Per the spec an update identifier carries a path-validation
portion and further data outside it; dedup comparison is restricted to the
path-validation portion. -/
structure SRxUpdateID where
  pv : Nat
  rest : Nat
deriving DecidableEq

/-- Modelled from the spec: compareSrxUpdateID(a, b, SRX_UID_PV) from
shared/srx_identifier.h is not under src/; per the spec it is a three-way
comparison restricted to the path-validation portion of the identifier. -/
def compareSrxUpdateID (a b : SRxUpdateID) : Int :=
  if a.pv < b.pv then -1 else if b.pv < a.pv then 1 else 0

/-- At this point do NOT store the updateID as shared value (source line 103). -/
def _SKI_UPD_SHARED : Bool := false

/-- This structure is a single linked list of update id's (_SKI_CACHE_UPDATEID). -/
structure _SKI_CACHE_UPDATEID where
  shared : Bool
  updateID : SRxUpdateID
deriving DecidableEq

/-- A single ski cache data element, one for each triplet SKI/asn/algoid
(_SKI_CACHE_DATA).  counter is a u_int8_t in the source. -/
structure _SKI_CACHE_DATA where
  counter : Nat
  asn : Nat
  ski : List Nat
  algoID : Nat
  cacheUID : List _SKI_CACHE_UPDATEID
deriving DecidableEq

/-- A simple linked list for algorithm ID (_SKI_CACHE_ALGO_ID). -/
structure _SKI_CACHE_ALGO_ID where
  algoID : Nat
  cacheData : List _SKI_CACHE_DATA
deriving DecidableEq

/-- A cache node: one element of the ordered upper list, owning the 65536
element as2 array.  The array is modelled sparsely as an association list
from the as2 index to the slot's algorithm-ID list; an absent index is a
NULL slot. -/
structure _SKI_CACHE_NODE where
  upper : Nat
  as2 : List (Nat × List _SKI_CACHE_ALGO_ID)
deriving DecidableEq

/-- The internal SKI cache (_SKI_CACHE).  The keyChange callback is carried
implicitly: each operation returns the list of (status, updateID)
notifications it issues, in order.  dataNodes is declared in the source and
never touched by any function in the file. -/
structure _SKI_CACHE where
  cacheNode : List _SKI_CACHE_NODE
  dataNodes : Int
deriving DecidableEq

/-- Registration verdict (e_Upd_RegRes from server/ski_cache.h). -/
inductive e_Upd_RegRes where
  | REGVAL_ERROR
  | REGVAL_INVALID
  | REGVAL_UNKNOWN
deriving DecidableEq

/-- SKI change kind (e_SKI_status from server/ski_cache.h). -/
inductive e_SKI_status where
  | SKI_NEW
  | SKI_ADD
  | SKI_DEL
  | SKI_REMOVED
deriving DecidableEq

/-- One keyChange callback invocation: the status and the affected update. -/
abbrev SkiEvent := e_SKI_status × SRxUpdateID

/-- Read of cNode->as2[i]: an absent association is a NULL slot, read as the
empty algorithm-ID list. -/
def as2Get : List (Nat × List _SKI_CACHE_ALGO_ID) → Nat → List _SKI_CACHE_ALGO_ID
  | [], _ => []
  | (k, v) :: rest, i => if k = i then v else as2Get rest i

/-- Write of cNode->as2[i]. -/
def as2Set : List (Nat × List _SKI_CACHE_ALGO_ID) → Nat → List _SKI_CACHE_ALGO_ID →
    List (Nat × List _SKI_CACHE_ALGO_ID)
  | [], i, v => [(i, v)]
  | (k, w) :: rest, i, v => if k = i then (i, v) :: rest else (k, w) :: as2Set rest i v

/-- ___ski_createCacheUID: allocates the update-id list element.  The source
discards the malloc result and derefs the NULL cUID (a slip); the intended
allocation is modelled.  Whether shared or copied, the stored identifier
has the same value. -/
def ___ski_createCacheUID (updateID : SRxUpdateID) (shared : Bool) : _SKI_CACHE_UPDATEID :=
  { shared := shared, updateID := updateID }

/-- ___ski_createCacheAlgoID: fresh algorithm-ID element with a NULL
cacheData list (intended memset-zero). -/
def ___ski_createCacheAlgoID (algoID : Nat) : _SKI_CACHE_ALGO_ID :=
  { algoID := algoID, cacheData := [] }

/-- ___ski_createCacheData: fresh data element; counter starts at the
intended memset-zero, cacheUID holds the update id when one is given. -/
def ___ski_createCacheData (asn : Nat) (ski : List Nat) (algoID : Nat)
    (updateID : Option SRxUpdateID) (shared : Bool) : _SKI_CACHE_DATA :=
  { counter := 0, asn := asn, ski := ski, algoID := algoID,
    cacheUID := match updateID with
                | some u => [___ski_createCacheUID u shared]
                | none => [] }

/-- ___ski_createCacheNode: fresh upper node with all as2 slots NULL. -/
def ___ski_createCacheNode (upper : Nat) : _SKI_CACHE_NODE :=
  { upper := upper, as2 := [] }

/-- ski_createCache: the callback must be non-NULL (assumed); the fresh
cache has a NULL root node (intended memset-zero). -/
def ski_createCache : _SKI_CACHE := { cacheNode := [], dataNodes := 0 }

/-- The while loop of __ski_getCacheNode walking the upper list with a prev
pointer.  Within the walk: upper below the current node inserts before it
when create is set (both the prev and the head branch of the source splice
the new node in front of the current one); equality returns the node;
otherwise advance.  Falling off the end returns NULL without inserting
(the source has no tail-append branch). -/
def walkNodes : List _SKI_CACHE_NODE → Nat → Bool →
    List _SKI_CACHE_NODE × Option _SKI_CACHE_NODE
  | [], _, _ => ([], none)
  | n :: rest, upper, create =>
    if upper < n.upper then
      if create then
        let m := ___ski_createCacheNode upper
        (m :: n :: rest, some m)
      else (n :: rest, none)
    else if upper = n.upper then (n :: rest, some n)
    else
      let r := walkNodes rest upper create
      (n :: r.1, r.2)

/-- __ski_getCacheNode: return the cache node for the upper two ASN bytes,
creating it when create is set and the upper list is empty or the walk
finds an insertion point. -/
def __ski_getCacheNode (cache : _SKI_CACHE) (upper : Nat) (create : Bool) :
    _SKI_CACHE × Option _SKI_CACHE_NODE :=
  match cache.cacheNode with
  | [] =>
    if create then
      let n := ___ski_createCacheNode upper
      ({ cache with cacheNode := [n] }, some n)
    else (cache, none)
  | n0 :: rest =>
    let r := walkNodes (n0 :: rest) upper create
    ({ cache with cacheNode := r.1 }, r.2)

/-- The while loop of __ski_getCacheAlgoID.  The source checks equality
first, then algoID below the current element.  Its prev pointer is
declared without an initialiser; NULL (the sibling functions' initial
value) is modelled.  When inserting before the head the source sets the
new element's next to the OLD HEAD'S next (cacheNode->as2[as2]->next),
dropping the previous head bucket from the list; deeper insertions splice
correctly through prev.  Falling off the end returns NULL without
inserting. -/
def walkAlgo : List _SKI_CACHE_ALGO_ID → Nat → Bool → Bool →
    List _SKI_CACHE_ALGO_ID × Option _SKI_CACHE_ALGO_ID
  | [], _, _, _ => ([], none)
  | b :: rest, algoID, create, atHead =>
    if b.algoID = algoID then (b :: rest, some b)
    else if algoID < b.algoID then
      if create then
        let nb := ___ski_createCacheAlgoID algoID
        if atHead then (nb :: rest, some nb)
        else (nb :: b :: rest, some nb)
      else (b :: rest, none)
    else
      let r := walkAlgo rest algoID create false
      (b :: r.1, r.2)

/-- __ski_getCacheAlgoID: find (or create) the algorithm-ID element in the
node's as2 slot; the slot head pointer update is written back into the
node. -/
def __ski_getCacheAlgoID (node : _SKI_CACHE_NODE) (as2 : Nat) (algoID : Nat)
    (create : Bool) : _SKI_CACHE_NODE × Option _SKI_CACHE_ALGO_ID :=
  match as2Get node.as2 as2 with
  | [] =>
    if create then
      let b := ___ski_createCacheAlgoID algoID
      ({ node with as2 := as2Set node.as2 as2 [b] }, some b)
    else (node, none)
  | b0 :: rest =>
    let r := walkAlgo (b0 :: rest) algoID create true
    ({ node with as2 := as2Set node.as2 as2 r.1 }, r.2)

/-- The while loop of _getCacheData over the SKI-ordered data list: memcmp
below zero inserts before the current element when create is set (prev is
initialised to NULL here and both insertion branches are correct), zero
returns the element, above zero advances.  Falling off the end returns
NULL without inserting. -/
def walkData : List _SKI_CACHE_DATA → Nat → List Nat → Nat → Bool →
    List _SKI_CACHE_DATA × Option _SKI_CACHE_DATA
  | [], _, _, _, _ => ([], none)
  | d :: rest, asn, ski, algoID, create =>
    let cmp := memcmpBytes ski d.ski
    if cmp < 0 then
      if create then
        let nd := ___ski_createCacheData asn ski algoID none false
        (nd :: d :: rest, some nd)
      else (d :: rest, none)
    else if cmp = 0 then (d :: rest, some d)
    else
      let r := walkData rest asn ski algoID create
      (d :: r.1, r.2)

/-- The head handling of the data level of _getCacheData: a NULL cacheData
head is populated directly when create is set, otherwise the list is
walked. -/
def dataFindOrCreate (l : List _SKI_CACHE_DATA) (asn : Nat) (ski : List Nat)
    (algoID : Nat) (create : Bool) : List _SKI_CACHE_DATA × Option _SKI_CACHE_DATA :=
  match l with
  | [] =>
    if create then
      let d := ___ski_createCacheData asn ski algoID none false
      ([d], some d)
    else ([], none)
  | d0 :: rest => walkData (d0 :: rest) asn ski algoID create

/-- In-place pointer mutation of the node found by the walk, rendered
functionally: apply f to the first node whose upper matches.  The walks
only ever return the first matching element, so this is the node the C
pointer refers to. -/
def updateNodeByUpper : List _SKI_CACHE_NODE → Nat →
    (_SKI_CACHE_NODE → _SKI_CACHE_NODE) → List _SKI_CACHE_NODE
  | [], _, _ => []
  | n :: rest, upper, f =>
    if n.upper = upper then f n :: rest else n :: updateNodeByUpper rest upper f

/-- In-place pointer mutation of the first bucket with the given algoID. -/
def updateBucketByAlgoID : List _SKI_CACHE_ALGO_ID → Nat →
    (_SKI_CACHE_ALGO_ID → _SKI_CACHE_ALGO_ID) → List _SKI_CACHE_ALGO_ID
  | [], _, _ => []
  | b :: rest, algoID, f =>
    if b.algoID = algoID then f b :: rest else b :: updateBucketByAlgoID rest algoID f

/-- In-place pointer mutation of the first data element whose ski compares
memcmp-equal to the given ski. -/
def updateDataBySki : List _SKI_CACHE_DATA → List Nat →
    (_SKI_CACHE_DATA → _SKI_CACHE_DATA) → List _SKI_CACHE_DATA
  | [], _, _ => []
  | d :: rest, ski, f =>
    if memcmpBytes ski d.ski = 0 then f d :: rest else d :: updateDataBySki rest ski f

/-- _getCacheData: find (and with create set, lazily build) the cache data
element matching the asn/ski/algoID triplet; upper and as2 are the high
and low 16 bits of the 32-bit ASN.  The pointer mutations of the found
node's slot performed through cNode and cAlgoID are written back by key,
which addresses exactly the element the C pointers refer to. -/
def _getCacheData (cache : _SKI_CACHE) (asn : Nat) (ski : List Nat) (algoID : Nat)
    (create : Bool) : _SKI_CACHE × Option _SKI_CACHE_DATA :=
  let upper := asn / 65536 % 65536
  let as2v := asn % 65536
  match __ski_getCacheNode cache upper create with
  | (cache1, none) => (cache1, none)
  | (cache1, some node) =>
    match __ski_getCacheAlgoID node as2v algoID create with
    | (node1, none) =>
      ({ cache1 with
         cacheNode := updateNodeByUpper cache1.cacheNode upper (fun _ => node1) },
       none)
    | (node1, some bkt) =>
      let r := dataFindOrCreate bkt.cacheData asn ski algoID create
      let bkt1 := { bkt with cacheData := r.1 }
      let node2 := { node1 with
        as2 := as2Set node1.as2 as2v
          (updateBucketByAlgoID (as2Get node1.as2 as2v) algoID (fun _ => bkt1)) }
      ({ cache1 with
         cacheNode := updateNodeByUpper cache1.cacheNode upper (fun _ => node2) },
       r.2)

/-- __ski_addUpdateCacheUID on the record's update-id list: ordered by the
path-validation comparison; an equal identifier is not added again; prev
is properly initialised here and the end-of-list case (cmp forced to -1)
appends through prev, so this level does insert at the tail. -/
def __ski_addUpdateCacheUID : List _SKI_CACHE_UPDATEID → SRxUpdateID → Bool →
    List _SKI_CACHE_UPDATEID
  | [], uid, shared => [___ski_createCacheUID uid shared]
  | c :: rest, uid, shared =>
    let cmp := compareSrxUpdateID uid c.updateID
    if cmp = 0 then c :: rest
    else if cmp < 0 then ___ski_createCacheUID uid shared :: c :: rest
    else c :: __ski_addUpdateCacheUID rest uid shared

/-- Write the mutated data record (obtained by pointer from _getCacheData)
back into the tree at its triple's position. -/
def storeCacheData (cache : _SKI_CACHE) (asn : Nat) (algoID : Nat) (ski : List Nat)
    (d : _SKI_CACHE_DATA) : _SKI_CACHE :=
  let upper := asn / 65536 % 65536
  let as2v := asn % 65536
  let fb : _SKI_CACHE_ALGO_ID → _SKI_CACHE_ALGO_ID := fun b =>
    { b with cacheData := updateDataBySki b.cacheData ski (fun _ => d) }
  let fn : _SKI_CACHE_NODE → _SKI_CACHE_NODE := fun n =>
    { n with as2 := as2Set n.as2 as2v (updateBucketByAlgoID (as2Get n.as2 as2v) algoID fb) }
  { cache with cacheNode := updateNodeByUpper cache.cacheNode upper fn }

/-- Modelled from the spec: BGP_UPD_A_FLAGS_EXT_LENGTH from the external
bgpsec headers (not under src/), the standard BGP extended-length
attribute flag bit 0x10. -/
def BGP_UPD_A_FLAGS_EXT_LENGTH : Nat := 16

/-- Outcome of the straight-line parse phase of ski_registerUpdate (source
lines 822..905), which touches no cache state.  malformed covers every
early return with retVal still REGVAL_ERROR; noBlocks is the fall-through
with retVal = REGVAL_INVALID and sigBlocks[0] NULL (the while loop is
skipped); loop carries the first signature block position and the secure
path ASN list with which the while loop runs.  sigBlocks[1] and numBlocks
are also computed by the source but never read afterwards (the loop never
advances to a second block), so they are not carried. -/
inductive ParseResult where
  | malformed
  | noBlocks
  | loop (blkPos : Nat) (asnList : List Nat)
deriving DecidableEq

/-- The parse phase of ski_registerUpdate.  The attribute starts at offset 0
of mem; the fixed SCA_BGP_PathAttribute header (modelled from the spec:
flags and type, 2 bytes) is skipped; the length is 1 byte, or 2 bytes
big-endian when the extended-length flag is set, and the source
decrements the remainder by 1 resp. 2 for the length field itself.  The
remainder is a u_int16_t, so the subtractions wrap and the two
`remainder below 0` checks of the source can never fire (the first is
embedded literally below and is decidably false; the second, inside the
two-block branch, is omitted for the same reason).  Signature block
layout modelled from the spec: algorithm id 1 byte, block length 2 bytes
big-endian; the block-length comparison at source line 868 reads the
u_int16_t field raw, without ntohs. -/
def registerUpdateParse (mem : Nat → Nat) : ParseResult :=
  let flags := byteAt mem 0
  let ext := Nat.land flags BGP_UPD_A_FLAGS_EXT_LENGTH ≠ 0
  let r0 := if ext then u16ofInt ((be16 mem 2 : Int) - 2)
            else u16ofInt ((byteAt mem 2 : Int) - 1)
  let pos0 := if ext then 4 else 3
  if r0 = 0 then ParseResult.malformed else
  let spLen := be16 mem pos0
  let numSegments := (Int.tdiv ((spLen : Int) - 2) 6).toNat
  let r1 := u16ofInt ((r0 : Int) - 2)
  if r1 = 0 then ParseResult.malformed else
  let segPos := pos0 + 2
  let r2 := u16ofInt ((r1 : Int) - 6 * (numSegments : Int))
  if ((r2 : Int) < 0) then ParseResult.malformed else
  let asnList := (List.range numSegments).map fun i => be32 mem (segPos + 6 * i + 2)
  let st :=
    if r2 > 0 then
      let blkPos := segPos + 6 * numSegments
      let len0raw := le16 mem (blkPos + 1)
      if r2 > len0raw then
        (u16ofInt ((r2 : Int) - (be16 mem (blkPos + 1) : Int)), some blkPos)
      else (r2, some blkPos)
    else (r2, (none : Option Nat))
  if st.1 ≠ 0 then ParseResult.malformed
  else
    match st.2 with
    | none => ParseResult.noBlocks
    | some blkPos => ParseResult.loop blkPos asnList

/-- Result of running ski_registerUpdate under a fuel bound on the
signature-block while loop: ok is a genuine return; nullDeref is the
dereference of the NULL cData the source performs when _getCacheData
falls off the end of a list with create set; fuelOut means the loop was
still running when the fuel ran out. -/
inductive UpdRunResult where
  | ok (r : e_Upd_RegRes) (cache : _SKI_CACHE)
  | nullDeref (cache : _SKI_CACHE)
  | fuelOut (cache : _SKI_CACHE)
deriving DecidableEq

/-- True on the fuel-exhausted outcome. -/
def UpdRunResult.isFuelOut : UpdRunResult → Bool
  | UpdRunResult.fuelOut _ => true
  | _ => false

/-- The cache state carried by the outcome. -/
def UpdRunResult.cacheOf : UpdRunResult → _SKI_CACHE
  | UpdRunResult.ok _ c => c
  | UpdRunResult.nullDeref c => c
  | UpdRunResult.fuelOut c => c

/-- The inner for loop of ski_registerUpdate over the signature segments:
for each remaining path ASN, read the 20-byte SKI at the stream
position, look up or create the record, count it when its key counter is
positive (keyCount is computed by the source and never used afterwards),
attach the update id to the record, and advance the stream by the raw
(un-byteswapped) siglen field - the source neither applies ntohs nor
skips the 22-byte segment header.  A NULL result from _getCacheData is
dereferenced by the source (cData->counter): Except.error carries the
cache at that crash. -/
def segLoop (mem : Nat → Nat) (uid : SRxUpdateID) (algoID : Nat) :
    List Nat → _SKI_CACHE → Nat → Nat → Except _SKI_CACHE (_SKI_CACHE × Nat)
  | [], c, _, keyCount => Except.ok (c, keyCount)
  | a :: rest, c, pos, keyCount =>
    let ski := (List.range 20).map fun k => byteAt mem (pos + k)
    match _getCacheData c a ski algoID true with
    | (c1, none) => Except.error c1
    | (c1, some d) =>
      let kc := if d.counter > 0 then keyCount + 1 else keyCount
      let d1 := { d with cacheUID := __ski_addUpdateCacheUID d.cacheUID uid _SKI_UPD_SHARED }
      let c2 := storeCacheData c1 a algoID ski d1
      segLoop mem uid algoID rest c2 (pos + le16 mem (pos + 20)) kc

/-- The signature-block while loop (source lines 908..937).  Each iteration
reads the block's algorithm id, processes every segment starting right
after the 3-byte block header, and then tests the loop condition again:
the source never advances sigBlock, so the same block is processed
for ever and the loop can only exit through the NULL dereference or by
running out of fuel. -/
def blockLoop (mem : Nat → Nat) (uid : SRxUpdateID) (blk : Nat) (asnList : List Nat) :
    Nat → _SKI_CACHE → UpdRunResult
  | 0, c => UpdRunResult.fuelOut c
  | Nat.succ fuel, c =>
    match segLoop mem uid (byteAt mem blk) asnList c (blk + 3) 0 with
    | Except.error c1 => UpdRunResult.nullDeref c1
    | Except.ok (c1, _) => blockLoop mem uid blk asnList fuel c1

/-- ski_registerUpdate: a NULL attribute returns REGVAL_ERROR; a parse
failure returns REGVAL_ERROR with the cache untouched (the parse phase
performs no cache access); an attribute with no signature block returns
the initial retVal REGVAL_INVALID (REGVAL_UNKNOWN is never assigned
anywhere in the function); otherwise the while loop runs on the first
signature block under the given fuel. -/
def ski_registerUpdate (cache : _SKI_CACHE) (updateID : SRxUpdateID)
    (bgpsec : Option (Nat → Nat)) (fuel : Nat) : UpdRunResult :=
  match bgpsec with
  | none => UpdRunResult.ok e_Upd_RegRes.REGVAL_ERROR cache
  | some mem =>
    match registerUpdateParse mem with
    | ParseResult.malformed => UpdRunResult.ok e_Upd_RegRes.REGVAL_ERROR cache
    | ParseResult.noBlocks => UpdRunResult.ok e_Upd_RegRes.REGVAL_INVALID cache
    | ParseResult.loop blkPos asnList => blockLoop mem updateID blkPos asnList fuel cache

/-- ski_unregisterUpdate(cache, updateID, bgpsec): the body of the source
function is empty. -/
def ski_unregisterUpdate (cache : _SKI_CACHE) (_updateID : SRxUpdateID)
    (_bgpsec : Option (Nat → Nat)) : _SKI_CACHE × List SkiEvent :=
  (cache, [])

/-- ski_registerKey(cache, asn, ski, algoID): the body of the source
function is empty. -/
def ski_registerKey (cache : _SKI_CACHE) (_asn : Nat) (_ski : List Nat) (_algoID : Nat) :
    _SKI_CACHE × List SkiEvent :=
  (cache, [])

/-- ski_unregisterKey(cache, asn, ski, algoID): the body of the source
function is empty. -/
def ski_unregisterKey (cache : _SKI_CACHE) (_asn : Nat) (_ski : List Nat) (_algoID : Nat) :
    _SKI_CACHE × List SkiEvent :=
  (cache, [])

/-- ski_clean: the body of the source function is empty. -/
def ski_clean (cache : _SKI_CACHE) : _SKI_CACHE × List SkiEvent :=
  (cache, [])

/-- Membership of an update id in a record's update-id list, judged by the
path-validation comparison the cache uses for dedup. -/
def uidListHas (l : List _SKI_CACHE_UPDATEID) (u : SRxUpdateID) : Bool :=
  l.any fun c => compareSrxUpdateID u c.updateID = 0

/-- Whether any KeyRecord anywhere in the tree still lists the update id. -/
def cacheHasUID (c : _SKI_CACHE) (u : SRxUpdateID) : Bool :=
  c.cacheNode.any fun n => n.as2.any fun p => p.2.any fun b =>
    b.cacheData.any fun d => uidListHas d.cacheUID u

/-- The SKI used by the repository's own test program (test_ski_cache.c),
AB4D910F55CAE71A215EF3CAFE3ACC45B5EEC154, as its 20 bytes. -/
def ski1 : List Nat :=
  [0xAB, 0x4D, 0x91, 0x0F, 0x55, 0xCA, 0xE7, 0x1A, 0x21, 0x5E,
   0xF3, 0xCA, 0xFE, 0x3A, 0xCC, 0x45, 0xB5, 0xEE, 0xC1, 0x54]

/-- A concrete BGPSEC path attribute with one secure-path segment (ASN
65534) and one signature block (algorithm id 1, SKI ski1, one
231-byte signature), consistent under the source's own length
conventions: the extended length field 266 covers the 264 bytes that
follow it plus the 2 length bytes the source deducts; the Secure_Path
length 8 yields exactly one 6-byte segment; the signature block length
256 equals exactly the remaining byte budget (3-byte block header +
20-byte SKI + 2-byte signature length + 231 signature bytes). -/
def attrBytes1 : List Nat :=
  [0x10, 33, 0x01, 0x0A,
   0x00, 0x08,
   0x00, 0x00,
   0x00, 0x00, 0xFF, 0xFE,
   0x01,
   0x01, 0x00]
  ++ ski1
  ++ [0x00, 0xE7]
  ++ List.replicate 231 0

/-- The memory seen by ski_registerUpdate when handed a pointer to
attrBytes1; bytes past the attribute are zero. -/
def mem1 : Nat → Nat := fun i => attrBytes1.getD i 0

/-- A concrete update identifier. -/
def u1 : SRxUpdateID := { pv := 1, rest := 0 }

/-- The KeyRecord that the first while-loop iteration of ski_registerUpdate
on attrBytes1 creates: triple (65534, 1, ski1), counter 0 (no key was
ever registered), update u1 attached. -/
def cacheData1 : _SKI_CACHE_DATA :=
  { counter := 0, asn := 65534, ski := ski1, algoID := 1,
    cacheUID := [{ shared := false, updateID := u1 }] }

/-- The cache state after the first while-loop iteration of
ski_registerUpdate on attrBytes1 starting from the fresh cache: one
upper-0 node, slot 65534, one algorithm-1 bucket, one record.  Every
further iteration of the loop maps this state to itself. -/
def cacheAfter1 : _SKI_CACHE :=
  { cacheNode := [{ upper := 0, as2 := [(65534, [{ algoID := 1, cacheData := [cacheData1] }])] }],
    dataNodes := 0 }

/-- Strict order of data records inside a bucket: byte-lexicographic on the
20-byte SKI, the memcmp order the source inserts by. -/
def dataLt (a b : _SKI_CACHE_DATA) : Prop := memcmpBytes a.ski b.ski < 0

/-- Strict order of algorithm-ID elements inside a slot. -/
def algoLt (a b : _SKI_CACHE_ALGO_ID) : Prop := a.algoID < b.algoID

/-- Strict order of upper nodes in the cache list. -/
def nodeLt (a b : _SKI_CACHE_NODE) : Prop := a.upper < b.upper

instance : DecidableRel dataLt := fun a b =>
  inferInstanceAs (Decidable (memcmpBytes a.ski b.ski < 0))

instance : DecidableRel algoLt := fun a b =>
  inferInstanceAs (Decidable (a.algoID < b.algoID))

instance : DecidableRel nodeLt := fun a b =>
  inferInstanceAs (Decidable (a.upper < b.upper))

/-- A slot's algorithm-ID list is strictly ascending and every bucket's
data list is strictly SKI-ascending. -/
def SlotSorted (s : List _SKI_CACHE_ALGO_ID) : Prop :=
  s.Pairwise algoLt ∧ ∀ b ∈ s, b.cacheData.Pairwise dataLt

/-- Every as2 slot of the node is sorted. -/
def NodeSorted (n : _SKI_CACHE_NODE) : Prop := ∀ p ∈ n.as2, SlotSorted p.2

/-- A full traversal of the cache yields uppers ascending, algorithm ids
ascending within each slot, and SKIs ascending within each bucket. -/
def SortedCache (c : _SKI_CACHE) : Prop :=
  c.cacheNode.Pairwise nodeLt ∧ ∀ n ∈ c.cacheNode, NodeSorted n

instance (s : List _SKI_CACHE_ALGO_ID) : Decidable (SlotSorted s) := by
  unfold SlotSorted; infer_instance

instance (n : _SKI_CACHE_NODE) : Decidable (NodeSorted n) := by
  unfold NodeSorted; infer_instance

instance (c : _SKI_CACHE) : Decidable (SortedCache c) := by
  unfold SortedCache; infer_instance

/-- The find-or-create insertions driven by a request list, as
registerUpdate performs them through _getCacheData with create set,
starting from the fresh cache.  A request is (asn, algoID, ski). -/
def registerTriples (reqs : List (Nat × Nat × List Nat)) : _SKI_CACHE :=
  reqs.foldl (fun c r => (_getCacheData c r.1 r.2.2 r.2.1 true).1) ski_createCache

/-- The truncated attribute buffer of the malformed-input analysis: only the
first 6 bytes of attrBytes1 (fixed header, extended length 266, and the
declared Secure_Path length 8), so the declared Secure_Path content (one
6-byte segment ending at offset 11) extends past the buffer.  The
function receives only a pointer, so walking past offset 5 reads
adjacent memory; mem1 supplies those adjacent bytes. -/
def buffer2 : List Nat := attrBytes1.take 6

/-- A cache holding exactly one reclaimable record: triple (65534, 1, ski1)
with counter 0 and no attached updates, as left behind by a
find-or-create with no key and no update registered. -/
def cacheDead : _SKI_CACHE := (_getCacheData ski_createCache 65534 ski1 1 true).1

/-- A bucket for algorithm id 2 holding one KeyRecord, used to exhibit the
head-insertion behaviour of __ski_getCacheAlgoID. -/
def bucketAlgo2 : _SKI_CACHE_ALGO_ID :=
  { algoID := 2,
    cacheData := [{ counter := 1, asn := 2, ski := ski1, algoID := 2, cacheUID := [] }] }

/-- A node whose as2 slot 0 holds exactly the algorithm-2 bucket. -/
def nodeWithAlgo2 : _SKI_CACHE_NODE := { upper := 0, as2 := [(0, [bucketAlgo2])] }

lemma registerUpdateParse_mem1 : registerUpdateParse mem1 = ParseResult.loop 12 [65534] := by
  decide

lemma segLoop_mem1_first :
    segLoop mem1 u1 (byteAt mem1 12) [65534] ski_createCache (12 + 3) 0
      = Except.ok (cacheAfter1, 0) := by
  rfl

lemma segLoop_mem1_fix :
    segLoop mem1 u1 (byteAt mem1 12) [65534] cacheAfter1 (12 + 3) 0
      = Except.ok (cacheAfter1, 0) := by
  rfl

lemma blockLoop_mem1_fix : ∀ fuel : Nat,
    (blockLoop mem1 u1 12 [65534] fuel cacheAfter1).isFuelOut = true := by
  intro fuel
  induction fuel with
  | zero => rfl
  | succ n ih =>
    rw [blockLoop, segLoop_mem1_fix]
    exact ih

lemma registerUpdate_mem1_diverges : ∀ fuel : Nat,
    (ski_registerUpdate ski_createCache u1 (some mem1) fuel).isFuelOut = true := by
  intro fuel
  have h : ski_registerUpdate ski_createCache u1 (some mem1) fuel
      = blockLoop mem1 u1 12 [65534] fuel ski_createCache := by
    simp only [ski_registerUpdate, registerUpdateParse_mem1]
  rw [h]
  cases fuel with
  | zero => rfl
  | succ n =>
    rw [blockLoop, segLoop_mem1_first]
    exact blockLoop_mem1_fix n

lemma blockLoop_never_ok : ∀ (fuel : Nat) (mem : Nat → Nat) (uid : SRxUpdateID)
    (blk : Nat) (al : List Nat) (c : _SKI_CACHE) (r : e_Upd_RegRes) (c1 : _SKI_CACHE),
    blockLoop mem uid blk al fuel c ≠ UpdRunResult.ok r c1 := by
  intro fuel
  induction fuel with
  | zero => intro mem uid blk al c r c1 h; exact absurd h (by simp [blockLoop])
  | succ n ih =>
    intro mem uid blk al c r c1 h
    rw [blockLoop] at h
    revert h
    cases hs : segLoop mem uid (byteAt mem blk) al c (blk + 3) 0 with
    | error c2 => simp
    | ok p =>
      intro h
      exact ih mem uid blk al p.1 r c1 h

/-- Claim C1 (refuted; code bug): for well-formed attributes with at least
one signature block the source never produces the claimed verdicts.
First conjunct: ski_registerUpdate never returns REGVAL_UNKNOWN for any
input whatsoever - the function never assigns that value.  Second
conjunct: on the concrete well-formed one-segment one-block attribute
attrBytes1 (all keys absent, so the claim demands REGVAL_INVALID) the
call never returns at all: the signature-block while loop never advances
sigBlock, so it runs out of any amount of fuel. -/
theorem c1_registerUpdate_verdicts :
    (∀ (c : _SKI_CACHE) (u : SRxUpdateID) (bg : Option (Nat → Nat)) (fuel : Nat)
       (c1 : _SKI_CACHE),
       ski_registerUpdate c u bg fuel ≠ UpdRunResult.ok e_Upd_RegRes.REGVAL_UNKNOWN c1) ∧
    (∀ fuel : Nat,
       (ski_registerUpdate ski_createCache u1 (some mem1) fuel).isFuelOut = true) := by
  constructor
  · intro c u bg fuel c1 h
    cases bg with
    | none => simp [ski_registerUpdate] at h
    | some mem =>
      rw [ski_registerUpdate] at h
      revert h
      cases registerUpdateParse mem with
      | malformed => simp
      | noBlocks => simp
      | loop blk al => exact blockLoop_never_ok fuel mem u blk al c _ c1
  · exact registerUpdate_mem1_diverges

/-- Claim C2 (refuted; code bug): a truncated attribute does not make
ski_registerUpdate return Error with the cache unchanged.  buffer2 is
the 6-byte truncated buffer (its declared Secure_Path of length 8,
spanning offsets 4..11, extends past it); mem1 agrees with buffer2 on
the buffer and supplies the adjacent memory bytes the source then reads
(it receives no buffer length and its unsigned remainder checks cannot
fire).  On this input the call never returns Error - it never returns at
all - and its very first loop iteration creates the KeyRecord
(65534, 1, ski1) from bytes beyond the buffer. -/
theorem c2_truncated_attribute :
    buffer2.length = 6 ∧
    (List.range buffer2.length).map mem1 = buffer2 ∧
    be16 mem1 4 = 8 ∧
    4 + be16 mem1 4 > buffer2.length ∧
    (∀ fuel : Nat,
       (ski_registerUpdate ski_createCache u1 (some mem1) fuel).isFuelOut = true) ∧
    (_getCacheData (ski_registerUpdate ski_createCache u1 (some mem1) 1).cacheOf
        65534 ski1 1 false).2 = some cacheData1 := by
  refine ⟨by decide, by decide, by decide, by decide, registerUpdate_mem1_diverges, by rfl⟩

/-- Claim C3 (refuted; code bug): ski_registerKey has an empty body, so one
register call on a fresh cache creates no KeyRecord at all - the
claimed counter value (registers minus unregisters = 1) does not exist:
the lookup of the registered triple still returns NULL. -/
theorem c3_registerKey_counter :
    (ski_registerKey ski_createCache 65534 ski1 1).1 = ski_createCache ∧
    (_getCacheData (ski_registerKey ski_createCache 65534 ski1 1).1
        65534 ski1 1 false).2 = none :=
  ⟨rfl, rfl⟩

/-- Claim C4 (refuted; code bug): on a cache whose record for
(65534, 1, ski1) has counter 0 and the update u1 attached, registering
that key must notify SKI_NEW for u1; the empty-bodied ski_registerKey
issues no callback invocation at all (and ski_unregisterKey likewise
issues none). -/
theorem c4_key_notifications :
    (_getCacheData cacheAfter1 65534 ski1 1 false).2.map
        (fun d => (d.counter, uidListHas d.cacheUID u1)) = some (0, true) ∧
    (ski_registerKey cacheAfter1 65534 ski1 1).2 = [] ∧
    (ski_unregisterKey cacheAfter1 65534 ski1 1).2 = [] := by
  refine ⟨by rfl, rfl, rfl⟩

/-- Claim C5 (refuted; code bug): registration on attrBytes1 attaches u1 to
the record (65534, 1, ski1) - cacheAfter1 is the state its first loop
iteration reaches - but ski_unregisterUpdate has an empty body: it
returns the state unchanged, so the update id is still attached
afterwards, where the claim demands every touched UpdateIdList be left
without it. -/
theorem c5_unregister_round_trip :
    ski_registerUpdate ski_createCache u1 (some mem1) 1 = UpdRunResult.fuelOut cacheAfter1 ∧
    cacheHasUID cacheAfter1 u1 = true ∧
    ski_unregisterUpdate cacheAfter1 u1 (some mem1) = (cacheAfter1, []) ∧
    cacheHasUID (ski_unregisterUpdate cacheAfter1 u1 (some mem1)).1 u1 = true := by
  refine ⟨by rfl, by decide, rfl, by decide⟩

/-- Claim C7 (refuted; code bug): inserting a new algorithm id in front of
the head of a slot's bucket list loses the previous head.  nodeWithAlgo2
has one bucket (algorithm id 2, one KeyRecord); the find-or-create of
algorithm id 1 with create set returns a fresh bucket, and the resulting
slot no longer contains any bucket with algorithm id 2 - the previously
reachable KeyRecord is lost (the source sets the new element's next to
the old head's next instead of the old head). -/
theorem c7_algo_insert_drops_head :
    ((as2Get nodeWithAlgo2.as2 0).any (fun b => b.algoID == 2)) = true ∧
    (__ski_getCacheAlgoID nodeWithAlgo2 0 1 true).2 = some (___ski_createCacheAlgoID 1) ∧
    ((as2Get ((__ski_getCacheAlgoID nodeWithAlgo2 0 1 true).1).as2 0).any
        (fun b => b.algoID == 2)) = false := by
  refine ⟨by decide, by decide, by decide⟩

/-- Claim C8 (refuted; code bug): ski_registerUpdate does not terminate on
every input.  attrBytes1 parses cleanly into one secure-path segment and
one signature block (first conjunct), and the run from the fresh cache
exhausts every fuel bound: the while loop over signature blocks never
advances its loop variable. -/
theorem c8_registerUpdate_termination :
    registerUpdateParse mem1 = ParseResult.loop 12 [65534] ∧
    ∀ fuel : Nat,
      (ski_registerUpdate ski_createCache u1 (some mem1) fuel).isFuelOut = true :=
  ⟨registerUpdateParse_mem1, registerUpdate_mem1_diverges⟩

/-- Claim C9 (refuted; code bug): ski_clean has an empty body.  cacheDead
holds exactly one reclaimable record (counter 0, empty UpdateIdList);
clean must remove it but returns the cache unchanged, the record still
present afterwards. -/
theorem c9_clean_removes_nothing :
    (_getCacheData cacheDead 65534 ski1 1 false).2.map
        (fun d => (d.counter, d.cacheUID)) = some (0, []) ∧
    ski_clean cacheDead = (cacheDead, []) ∧
    (_getCacheData (ski_clean cacheDead).1 65534 ski1 1 false).2.map
        (fun d => (d.counter, d.cacheUID)) = some (0, []) := by
  refine ⟨by rfl, rfl, by rfl⟩

/-- Claim C10 (confirmed): ski_registerKey, ski_unregisterKey,
ski_unregisterUpdate and ski_clean all have empty bodies: for every
cache state and all arguments they return the state unchanged and issue
no keyChange callback invocation. -/
theorem c10_stub_frame :
    ∀ (c : _SKI_CACHE) (asn : Nat) (ski : List Nat) (algoID : Nat)
      (u : SRxUpdateID) (bg : Option (Nat → Nat)),
      ski_registerKey c asn ski algoID = (c, []) ∧
      ski_unregisterKey c asn ski algoID = (c, []) ∧
      ski_unregisterUpdate c u bg = (c, []) ∧
      ski_clean c = (c, []) :=
  fun _ _ _ _ _ _ => ⟨rfl, rfl, rfl, rfl⟩

lemma memcmpBytes_antisymm : ∀ a b : List Nat, memcmpBytes a b = -memcmpBytes b a := by
  intro a
  induction a with
  | nil => intro b; cases b <;> simp [memcmpBytes]
  | cons x as ih =>
    intro b
    cases b with
    | nil => simp [memcmpBytes]
    | cons y bs =>
      simp only [memcmpBytes]
      rcases Nat.lt_trichotomy x y with h | h | h
      · rw [if_pos h, if_neg (Nat.lt_asymm h), if_pos h]
      · subst h
        rw [if_neg (Nat.lt_irrefl x), if_neg (Nat.lt_irrefl x),
            if_neg (Nat.lt_irrefl x), if_neg (Nat.lt_irrefl x)]
        exact ih bs
      · rw [if_neg (Nat.lt_asymm h), if_pos h, if_pos h]; decide

lemma memcmpBytes_lt_trans : ∀ a b c : List Nat,
    memcmpBytes a b < 0 → memcmpBytes b c < 0 → memcmpBytes a c < 0 := by
  intro a
  induction a with
  | nil => intro b c h1 _; simp [memcmpBytes] at h1
  | cons x as ih =>
    intro b c h1 h2
    cases b with
    | nil => simp [memcmpBytes] at h1
    | cons y bs =>
      cases c with
      | nil => simp [memcmpBytes] at h2
      | cons z cs =>
        simp only [memcmpBytes] at h1 h2 ⊢
        by_cases hxy : x < y
        · by_cases hyz : y < z
          · rw [if_pos (Nat.lt_trans hxy hyz)]; decide
          · by_cases hzy : z < y
            · rw [if_neg hyz, if_pos hzy] at h2; exact absurd h2 (by decide)
            · have hyz2 : y = z := Nat.le_antisymm (Nat.le_of_not_lt hzy) (Nat.le_of_not_lt hyz)
              rw [if_pos (hyz2 ▸ hxy)]; decide
        · by_cases hyx : y < x
          · rw [if_neg hxy, if_pos hyx] at h1; exact absurd h1 (by decide)
          · have hxy2 : x = y := Nat.le_antisymm (Nat.le_of_not_lt hyx) (Nat.le_of_not_lt hxy)
            rw [if_neg hxy, if_neg hyx] at h1
            by_cases hyz : y < z
            · rw [if_pos (hxy2 ▸ hyz)]; decide
            · by_cases hzy : z < y
              · rw [if_neg hyz, if_pos hzy] at h2; exact absurd h2 (by decide)
              · have hyz2 : y = z := Nat.le_antisymm (Nat.le_of_not_lt hzy) (Nat.le_of_not_lt hyz)
                rw [if_neg hyz, if_neg hzy] at h2
                have hxz : ¬ x < z := by omega
                have hzx : ¬ z < x := by omega
                rw [if_neg hxz, if_neg hzx]
                exact ih bs cs h1 h2

lemma memcmpBytes_pos_flip (a b : List Nat) (h : 0 < memcmpBytes a b) :
    memcmpBytes b a < 0 := by
  rw [memcmpBytes_antisymm b a]; omega

lemma walkData_mem : ∀ (l : List _SKI_CACHE_DATA) (asn : Nat) (ski : List Nat)
    (algoID : Nat) (create : Bool) (x : _SKI_CACHE_DATA),
    x ∈ (walkData l asn ski algoID create).1 →
    x ∈ l ∨ x = ___ski_createCacheData asn ski algoID none false := by
  intro l
  induction l with
  | nil => intro asn ski algoID create x hx; simp [walkData] at hx
  | cons d rest ih =>
    intro asn ski algoID create x hx
    simp only [walkData] at hx
    split at hx
    · split at hx
      · simp only [List.mem_cons] at hx
        rcases hx with h | h | h
        · right; exact h
        · left; exact List.mem_cons.mpr (Or.inl h)
        · left; exact List.mem_cons.mpr (Or.inr h)
      · left; exact hx
    · split at hx
      · left; exact hx
      · simp only [List.mem_cons] at hx
        rcases hx with h | h
        · left; exact List.mem_cons.mpr (Or.inl h)
        · rcases ih asn ski algoID create x h with h2 | h2
          · left; exact List.mem_cons.mpr (Or.inr h2)
          · right; exact h2

lemma walkData_pairwise : ∀ (l : List _SKI_CACHE_DATA) (asn : Nat) (ski : List Nat)
    (algoID : Nat) (create : Bool), l.Pairwise dataLt →
    ((walkData l asn ski algoID create).1).Pairwise dataLt := by
  intro l
  induction l with
  | nil => intro asn ski algoID create _; simp [walkData]
  | cons d rest ih =>
    intro asn ski algoID create hp
    rw [List.pairwise_cons] at hp
    obtain ⟨hd, hrest⟩ := hp
    simp only [walkData]
    split
    · next hcmp =>
      split
      · refine List.Pairwise.cons ?_ (List.Pairwise.cons hd hrest)
        intro y hy
        rcases List.mem_cons.mp hy with h | h
        · subst h; exact hcmp
        · exact memcmpBytes_lt_trans _ _ _ hcmp (hd y h)
      · exact List.Pairwise.cons hd hrest
    · next hcmp =>
      split
      · exact List.Pairwise.cons hd hrest
      · next hne =>
        refine List.Pairwise.cons ?_ (ih asn ski algoID create hrest)
        intro y hy
        rcases walkData_mem rest asn ski algoID create y hy with h | h
        · exact hd y h
        · subst h
          have hpos : 0 < memcmpBytes ski d.ski := by omega
          exact memcmpBytes_pos_flip _ _ hpos

lemma dataFindOrCreate_mem (l : List _SKI_CACHE_DATA) (asn : Nat) (ski : List Nat)
    (algoID : Nat) (create : Bool) (x : _SKI_CACHE_DATA)
    (hx : x ∈ (dataFindOrCreate l asn ski algoID create).1) :
    x ∈ l ∨ x = ___ski_createCacheData asn ski algoID none false := by
  cases l with
  | nil =>
    simp only [dataFindOrCreate] at hx
    split at hx
    · simp only [List.mem_singleton] at hx; right; exact hx
    · simp at hx
  | cons d rest => exact walkData_mem (d :: rest) asn ski algoID create x hx

lemma dataFindOrCreate_pairwise (l : List _SKI_CACHE_DATA) (asn : Nat) (ski : List Nat)
    (algoID : Nat) (create : Bool) (hp : l.Pairwise dataLt) :
    ((dataFindOrCreate l asn ski algoID create).1).Pairwise dataLt := by
  cases l with
  | nil =>
    simp only [dataFindOrCreate]
    split
    · simp
    · simp
  | cons d rest => exact walkData_pairwise (d :: rest) asn ski algoID create hp

lemma walkAlgo_mem : ∀ (l : List _SKI_CACHE_ALGO_ID) (a : Nat) (create atHead : Bool)
    (x : _SKI_CACHE_ALGO_ID), x ∈ (walkAlgo l a create atHead).1 →
    x ∈ l ∨ x = ___ski_createCacheAlgoID a := by
  intro l
  induction l with
  | nil => intro a create atHead x hx; simp [walkAlgo] at hx
  | cons b rest ih =>
    intro a create atHead x hx
    simp only [walkAlgo] at hx
    split at hx
    · left; exact hx
    · split at hx
      · split at hx
        · split at hx
          · simp only [List.mem_cons] at hx
            rcases hx with h | h
            · right; exact h
            · left; exact List.mem_cons.mpr (Or.inr h)
          · simp only [List.mem_cons] at hx
            rcases hx with h | h | h
            · right; exact h
            · left; exact List.mem_cons.mpr (Or.inl h)
            · left; exact List.mem_cons.mpr (Or.inr h)
        · left; exact hx
      · simp only [List.mem_cons] at hx
        rcases hx with h | h
        · left; exact List.mem_cons.mpr (Or.inl h)
        · rcases ih a create false x h with h2 | h2
          · left; exact List.mem_cons.mpr (Or.inr h2)
          · right; exact h2

lemma walkAlgo_pairwise : ∀ (l : List _SKI_CACHE_ALGO_ID) (a : Nat) (create atHead : Bool),
    l.Pairwise algoLt → ((walkAlgo l a create atHead).1).Pairwise algoLt := by
  intro l
  induction l with
  | nil => intro a create atHead _; simp [walkAlgo]
  | cons b rest ih =>
    intro a create atHead hp
    rw [List.pairwise_cons] at hp
    obtain ⟨hd, hrest⟩ := hp
    simp only [walkAlgo]
    split
    · exact List.Pairwise.cons hd hrest
    · next hne =>
      split
      · next hlt =>
        split
        · split
          · refine List.Pairwise.cons ?_ hrest
            intro y hy
            exact Nat.lt_trans hlt (hd y hy)
          · refine List.Pairwise.cons ?_ (List.Pairwise.cons hd hrest)
            intro y hy
            rcases List.mem_cons.mp hy with h | h
            · subst h; exact hlt
            · exact Nat.lt_trans hlt (hd y h)
        · exact List.Pairwise.cons hd hrest
      · next hnlt =>
        refine List.Pairwise.cons ?_ (ih a create false hrest)
        intro y hy
        rcases walkAlgo_mem rest a create false y hy with h | h
        · exact hd y h
        · subst h
          show b.algoID < a
          omega

lemma walkAlgo_dataSorted : ∀ (l : List _SKI_CACHE_ALGO_ID) (a : Nat) (create atHead : Bool),
    (∀ b ∈ l, b.cacheData.Pairwise dataLt) →
    ∀ b ∈ (walkAlgo l a create atHead).1, b.cacheData.Pairwise dataLt := by
  intro l a create atHead h b hb
  rcases walkAlgo_mem l a create atHead b hb with h2 | h2
  · exact h b h2
  · subst h2; simp [___ski_createCacheAlgoID]

lemma walkAlgo_found : ∀ (l : List _SKI_CACHE_ALGO_ID) (a : Nat) (create atHead : Bool)
    (b : _SKI_CACHE_ALGO_ID), (walkAlgo l a create atHead).2 = some b →
    (b ∈ l ∨ b = ___ski_createCacheAlgoID a) ∧ b.algoID = a := by
  intro l
  induction l with
  | nil => intro a create atHead b hb; simp [walkAlgo] at hb
  | cons x rest ih =>
    intro a create atHead b hb
    simp only [walkAlgo] at hb
    split at hb
    · next heq =>
      rw [Option.some_inj] at hb
      subst hb
      exact ⟨Or.inl (List.mem_cons.mpr (Or.inl rfl)), heq⟩
    · split at hb
      · split at hb
        · split at hb
          · rw [Option.some_inj] at hb
            subst hb
            exact ⟨Or.inr rfl, rfl⟩
          · rw [Option.some_inj] at hb
            subst hb
            exact ⟨Or.inr rfl, rfl⟩
        · simp at hb
      · rcases ih a create false b hb with ⟨h1, h2⟩
        refine ⟨?_, h2⟩
        rcases h1 with h | h
        · exact Or.inl (List.mem_cons.mpr (Or.inr h))
        · exact Or.inr h

lemma walkNodes_mem : ∀ (l : List _SKI_CACHE_NODE) (u : Nat) (create : Bool)
    (x : _SKI_CACHE_NODE), x ∈ (walkNodes l u create).1 →
    x ∈ l ∨ x = ___ski_createCacheNode u := by
  intro l
  induction l with
  | nil => intro u create x hx; simp [walkNodes] at hx
  | cons n rest ih =>
    intro u create x hx
    simp only [walkNodes] at hx
    split at hx
    · split at hx
      · simp only [List.mem_cons] at hx
        rcases hx with h | h | h
        · right; exact h
        · left; exact List.mem_cons.mpr (Or.inl h)
        · left; exact List.mem_cons.mpr (Or.inr h)
      · left; exact hx
    · split at hx
      · left; exact hx
      · simp only [List.mem_cons] at hx
        rcases hx with h | h
        · left; exact List.mem_cons.mpr (Or.inl h)
        · rcases ih u create x h with h2 | h2
          · left; exact List.mem_cons.mpr (Or.inr h2)
          · right; exact h2

lemma walkNodes_pairwise : ∀ (l : List _SKI_CACHE_NODE) (u : Nat) (create : Bool),
    l.Pairwise nodeLt → ((walkNodes l u create).1).Pairwise nodeLt := by
  intro l
  induction l with
  | nil => intro u create _; simp [walkNodes]
  | cons n rest ih =>
    intro u create hp
    rw [List.pairwise_cons] at hp
    obtain ⟨hd, hrest⟩ := hp
    simp only [walkNodes]
    split
    · next hlt =>
      split
      · refine List.Pairwise.cons ?_ (List.Pairwise.cons hd hrest)
        intro y hy
        rcases List.mem_cons.mp hy with h | h
        · subst h; exact hlt
        · exact Nat.lt_trans hlt (hd y h)
      · exact List.Pairwise.cons hd hrest
    · next hnlt =>
      split
      · exact List.Pairwise.cons hd hrest
      · next hne =>
        refine List.Pairwise.cons ?_ (ih u create hrest)
        intro y hy
        rcases walkNodes_mem rest u create y hy with h | h
        · exact hd y h
        · subst h
          show n.upper < u
          omega

lemma walkNodes_found : ∀ (l : List _SKI_CACHE_NODE) (u : Nat) (create : Bool)
    (n : _SKI_CACHE_NODE), (walkNodes l u create).2 = some n →
    (n ∈ l ∨ n = ___ski_createCacheNode u) ∧ n.upper = u := by
  intro l
  induction l with
  | nil => intro u create n hn; simp [walkNodes] at hn
  | cons x rest ih =>
    intro u create n hn
    simp only [walkNodes] at hn
    split at hn
    · split at hn
      · rw [Option.some_inj] at hn
        subst hn
        exact ⟨Or.inr rfl, rfl⟩
      · simp at hn
    · split at hn
      · next heq =>
        rw [Option.some_inj] at hn
        subst hn
        exact ⟨Or.inl (List.mem_cons.mpr (Or.inl rfl)), heq.symm⟩
      · rcases ih u create n hn with ⟨h1, h2⟩
        refine ⟨?_, h2⟩
        rcases h1 with h | h
        · exact Or.inl (List.mem_cons.mpr (Or.inr h))
        · exact Or.inr h

lemma updateNodeByUpper_mem : ∀ (l : List _SKI_CACHE_NODE) (u : Nat)
    (f : _SKI_CACHE_NODE → _SKI_CACHE_NODE) (x : _SKI_CACHE_NODE),
    x ∈ updateNodeByUpper l u f → x ∈ l ∨ ∃ z, z ∈ l ∧ z.upper = u ∧ x = f z := by
  intro l
  induction l with
  | nil => intro u f x hx; simp [updateNodeByUpper] at hx
  | cons n rest ih =>
    intro u f x hx
    simp only [updateNodeByUpper] at hx
    split at hx
    · next heq =>
      rcases List.mem_cons.mp hx with h | h
      · exact Or.inr ⟨n, List.mem_cons.mpr (Or.inl rfl), heq, h⟩
      · exact Or.inl (List.mem_cons.mpr (Or.inr h))
    · rcases List.mem_cons.mp hx with h | h
      · exact Or.inl (List.mem_cons.mpr (Or.inl h))
      · rcases ih u f x h with h2 | ⟨z, hz1, hz2, hz3⟩
        · exact Or.inl (List.mem_cons.mpr (Or.inr h2))
        · exact Or.inr ⟨z, List.mem_cons.mpr (Or.inr hz1), hz2, hz3⟩

lemma updateNodeByUpper_pairwise : ∀ (l : List _SKI_CACHE_NODE) (u : Nat)
    (f : _SKI_CACHE_NODE → _SKI_CACHE_NODE), l.Pairwise nodeLt →
    (∀ z, z.upper = u → (f z).upper = z.upper) →
    (updateNodeByUpper l u f).Pairwise nodeLt := by
  intro l
  induction l with
  | nil => intro u f _ _; simp [updateNodeByUpper]
  | cons n rest ih =>
    intro u f hp hf
    rw [List.pairwise_cons] at hp
    obtain ⟨hd, hrest⟩ := hp
    simp only [updateNodeByUpper]
    split
    · next heq =>
      refine List.Pairwise.cons ?_ hrest
      intro y hy
      show (f n).upper < y.upper
      rw [hf n heq]
      exact hd y hy
    · refine List.Pairwise.cons ?_ (ih u f hrest hf)
      intro y hy
      rcases updateNodeByUpper_mem rest u f y hy with h | ⟨z, hz1, hz2, hz3⟩
      · exact hd y h
      · subst hz3
        show n.upper < (f z).upper
        rw [hf z hz2]
        exact hd z hz1

lemma updateBucketByAlgoID_mem : ∀ (l : List _SKI_CACHE_ALGO_ID) (a : Nat)
    (f : _SKI_CACHE_ALGO_ID → _SKI_CACHE_ALGO_ID) (x : _SKI_CACHE_ALGO_ID),
    x ∈ updateBucketByAlgoID l a f → x ∈ l ∨ ∃ z, z ∈ l ∧ z.algoID = a ∧ x = f z := by
  intro l
  induction l with
  | nil => intro a f x hx; simp [updateBucketByAlgoID] at hx
  | cons b rest ih =>
    intro a f x hx
    simp only [updateBucketByAlgoID] at hx
    split at hx
    · next heq =>
      rcases List.mem_cons.mp hx with h | h
      · exact Or.inr ⟨b, List.mem_cons.mpr (Or.inl rfl), heq, h⟩
      · exact Or.inl (List.mem_cons.mpr (Or.inr h))
    · rcases List.mem_cons.mp hx with h | h
      · exact Or.inl (List.mem_cons.mpr (Or.inl h))
      · rcases ih a f x h with h2 | ⟨z, hz1, hz2, hz3⟩
        · exact Or.inl (List.mem_cons.mpr (Or.inr h2))
        · exact Or.inr ⟨z, List.mem_cons.mpr (Or.inr hz1), hz2, hz3⟩

lemma updateBucketByAlgoID_pairwise : ∀ (l : List _SKI_CACHE_ALGO_ID) (a : Nat)
    (f : _SKI_CACHE_ALGO_ID → _SKI_CACHE_ALGO_ID), l.Pairwise algoLt →
    (∀ z, z.algoID = a → (f z).algoID = z.algoID) →
    (updateBucketByAlgoID l a f).Pairwise algoLt := by
  intro l
  induction l with
  | nil => intro a f _ _; simp [updateBucketByAlgoID]
  | cons b rest ih =>
    intro a f hp hf
    rw [List.pairwise_cons] at hp
    obtain ⟨hd, hrest⟩ := hp
    simp only [updateBucketByAlgoID]
    split
    · next heq =>
      refine List.Pairwise.cons ?_ hrest
      intro y hy
      show (f b).algoID < y.algoID
      rw [hf b heq]
      exact hd y hy
    · refine List.Pairwise.cons ?_ (ih a f hrest hf)
      intro y hy
      rcases updateBucketByAlgoID_mem rest a f y hy with h | ⟨z, hz1, hz2, hz3⟩
      · exact hd y h
      · subst hz3
        show b.algoID < (f z).algoID
        rw [hf z hz2]
        exact hd z hz1

lemma as2Set_mem : ∀ (l : List (Nat × List _SKI_CACHE_ALGO_ID)) (i : Nat)
    (v : List _SKI_CACHE_ALGO_ID) (p : Nat × List _SKI_CACHE_ALGO_ID),
    p ∈ as2Set l i v → p ∈ l ∨ p = (i, v) := by
  intro l
  induction l with
  | nil => intro i v p hp; right; simpa [as2Set] using hp
  | cons q rest ih =>
    intro i v p hp
    obtain ⟨k, w⟩ := q
    simp only [as2Set] at hp
    split at hp
    · rcases List.mem_cons.mp hp with h | h
      · right; exact h
      · left; exact List.mem_cons.mpr (Or.inr h)
    · rcases List.mem_cons.mp hp with h | h
      · left; exact List.mem_cons.mpr (Or.inl h)
      · rcases ih i v p h with h2 | h2
        · left; exact List.mem_cons.mpr (Or.inr h2)
        · right; exact h2

lemma as2Get_slotSorted : ∀ (l : List (Nat × List _SKI_CACHE_ALGO_ID)) (i : Nat),
    (∀ p ∈ l, SlotSorted p.2) → SlotSorted (as2Get l i) := by
  intro l
  induction l with
  | nil => intro i _; exact ⟨List.Pairwise.nil, by intro b hb; simp [as2Get] at hb⟩
  | cons q rest ih =>
    intro i h
    obtain ⟨k, w⟩ := q
    simp only [as2Get]
    split
    · exact h (k, w) (List.mem_cons.mpr (Or.inl rfl))
    · exact ih i (fun p hp => h p (List.mem_cons.mpr (Or.inr hp)))

lemma getCacheNode_sorted (c : _SKI_CACHE) (u : Nat) (cr : Bool) (h : SortedCache c) :
    SortedCache ((__ski_getCacheNode c u cr).1) := by
  obtain ⟨hp, hall⟩ := h
  unfold __ski_getCacheNode
  cases hc : c.cacheNode with
  | nil =>
    cases cr with
    | false => exact ⟨hp, hall⟩
    | true =>
      refine ⟨List.pairwise_singleton _ _, ?_⟩
      intro n hn
      have hn2 : n = ___ski_createCacheNode u := List.mem_singleton.mp hn
      subst hn2
      intro p hp2
      simp [___ski_createCacheNode] at hp2
  | cons n rest =>
    refine ⟨walkNodes_pairwise _ u cr (hc ▸ hp), ?_⟩
    intro x hx
    rcases walkNodes_mem _ u cr x hx with h2 | h2
    · refine hall x ?_
      rw [hc]
      exact h2
    · subst h2
      intro p hp2
      simp [___ski_createCacheNode] at hp2

lemma getCacheNode_found (c : _SKI_CACHE) (u : Nat) (cr : Bool) (n : _SKI_CACHE_NODE)
    (hn : (__ski_getCacheNode c u cr).2 = some n) :
    (n ∈ c.cacheNode ∨ n = ___ski_createCacheNode u) ∧ n.upper = u := by
  unfold __ski_getCacheNode at hn
  cases hc : c.cacheNode with
  | nil =>
    rw [hc] at hn
    cases cr with
    | false => simp at hn
    | true =>
      have hn2 : ___ski_createCacheNode u = n := Option.some.inj hn
      subst hn2
      exact ⟨Or.inr rfl, rfl⟩
  | cons x rest =>
    rw [hc] at hn
    rcases walkNodes_found (x :: rest) u cr n hn with ⟨h1, h2⟩
    refine ⟨?_, h2⟩
    rcases h1 with hmem | hnew
    · exact Or.inl hmem
    · exact Or.inr hnew

lemma getCacheAlgoID_upper (node : _SKI_CACHE_NODE) (as2v a : Nat) (cr : Bool) :
    ((__ski_getCacheAlgoID node as2v a cr).1).upper = node.upper := by
  unfold __ski_getCacheAlgoID
  cases as2Get node.as2 as2v with
  | nil => cases cr <;> rfl
  | cons b rest => rfl

lemma getCacheAlgoID_nodeSorted (node : _SKI_CACHE_NODE) (as2v a : Nat) (cr : Bool)
    (h : NodeSorted node) : NodeSorted ((__ski_getCacheAlgoID node as2v a cr).1) := by
  unfold __ski_getCacheAlgoID
  cases hs : as2Get node.as2 as2v with
  | nil =>
    cases cr with
    | false => exact h
    | true =>
      intro p hp
      rcases as2Set_mem node.as2 as2v [___ski_createCacheAlgoID a] p hp with h2 | h2
      · exact h p h2
      · rw [h2]
        refine ⟨List.pairwise_singleton _ _, ?_⟩
        intro b hb
        rw [List.mem_singleton] at hb
        subst hb
        simp [___ski_createCacheAlgoID]
  | cons b rest =>
    intro p hp
    rcases as2Set_mem node.as2 as2v ((walkAlgo (b :: rest) a cr true).1) p hp with h2 | h2
    · exact h p h2
    · rw [h2]
      have hslot : SlotSorted (b :: rest) := hs ▸ as2Get_slotSorted node.as2 as2v h
      exact ⟨walkAlgo_pairwise _ a cr true hslot.1, walkAlgo_dataSorted _ a cr true hslot.2⟩

lemma getCacheAlgoID_found (node : _SKI_CACHE_NODE) (as2v a : Nat) (cr : Bool)
    (b : _SKI_CACHE_ALGO_ID) (h : NodeSorted node)
    (hb : (__ski_getCacheAlgoID node as2v a cr).2 = some b) :
    b.algoID = a ∧ b.cacheData.Pairwise dataLt := by
  unfold __ski_getCacheAlgoID at hb
  cases hs : as2Get node.as2 as2v with
  | nil =>
    rw [hs] at hb
    cases cr with
    | false => simp at hb
    | true =>
      have hb2 : ___ski_createCacheAlgoID a = b := Option.some.inj hb
      subst hb2
      exact ⟨rfl, by simp [___ski_createCacheAlgoID]⟩
  | cons x rest =>
    rw [hs] at hb
    rcases walkAlgo_found (x :: rest) a cr true b hb with ⟨h1, h2⟩
    refine ⟨h2, ?_⟩
    rcases h1 with hmem | hnew
    · have hslot : SlotSorted (x :: rest) := hs ▸ as2Get_slotSorted node.as2 as2v h
      exact hslot.2 b hmem
    · subst hnew; simp [___ski_createCacheAlgoID]

lemma getCacheData_sorted (c : _SKI_CACHE) (asn : Nat) (ski : List Nat) (a : Nat)
    (cr : Bool) (h : SortedCache c) : SortedCache ((_getCacheData c asn ski a cr).1) := by
  simp only [_getCacheData]
  rcases hn : __ski_getCacheNode c (asn / 65536 % 65536) cr with ⟨cache1, onode⟩
  have hc1 : SortedCache cache1 := by
    have h2 := getCacheNode_sorted c (asn / 65536 % 65536) cr h
    rw [hn] at h2; exact h2
  cases onode with
  | none => exact hc1
  | some node =>
    have hfnd := getCacheNode_found c (asn / 65536 % 65536) cr node (by rw [hn])
    have hupper : node.upper = asn / 65536 % 65536 := hfnd.2
    have hnode : NodeSorted node := by
      rcases hfnd.1 with hin | hnew
      · exact h.2 node hin
      · subst hnew; intro p hp; simp [___ski_createCacheNode] at hp
    show SortedCache ((match __ski_getCacheAlgoID node (asn % 65536) a cr with
      | (node1, none) =>
        (_SKI_CACHE.mk
          (updateNodeByUpper cache1.cacheNode (asn / 65536 % 65536) (fun _ => node1))
          cache1.dataNodes,
         (none : Option _SKI_CACHE_DATA))
      | (node1, some bkt) =>
        (_SKI_CACHE.mk
          (updateNodeByUpper cache1.cacheNode (asn / 65536 % 65536)
            (fun _ =>
              _SKI_CACHE_NODE.mk node1.upper
                (as2Set node1.as2 (asn % 65536)
                  (updateBucketByAlgoID (as2Get node1.as2 (asn % 65536)) a
                    (fun _ =>
                      _SKI_CACHE_ALGO_ID.mk bkt.algoID
                        (dataFindOrCreate bkt.cacheData asn ski a cr).1)))))
          cache1.dataNodes,
         (dataFindOrCreate bkt.cacheData asn ski a cr).2)).1)
    rcases ha : __ski_getCacheAlgoID node (asn % 65536) a cr with ⟨node1, obkt⟩
    have hn1 : NodeSorted node1 := by
      have h2 := getCacheAlgoID_nodeSorted node (asn % 65536) a cr hnode
      rw [ha] at h2; exact h2
    have hu1 : node1.upper = node.upper := by
      have h2 := getCacheAlgoID_upper node (asn % 65536) a cr
      rw [ha] at h2; exact h2
    cases obkt with
    | none =>
      have hfinal : SortedCache (_SKI_CACHE.mk
          (updateNodeByUpper cache1.cacheNode (asn / 65536 % 65536) (fun _ => node1))
          cache1.dataNodes) := by
        refine ⟨?_, ?_⟩
        · refine updateNodeByUpper_pairwise cache1.cacheNode _ _ hc1.1 ?_
          intro z hz
          show node1.upper = z.upper
          rw [hu1, hupper, hz]
        · intro x hx
          rcases updateNodeByUpper_mem cache1.cacheNode (asn / 65536 % 65536)
              (fun _ => node1) x hx with h2 | ⟨z, hz1, hz2, h3⟩
          · exact hc1.2 x h2
          · rw [h3]; exact hn1
      exact hfinal
    | some bkt =>
      have hbf := getCacheAlgoID_found node (asn % 65536) a cr bkt hnode (by rw [ha])
      have hslot1 : SlotSorted (as2Get node1.as2 (asn % 65536)) :=
        as2Get_slotSorted node1.as2 (asn % 65536) hn1
      have hnewslot : SlotSorted (updateBucketByAlgoID (as2Get node1.as2 (asn % 65536)) a
          (fun _ => { bkt with
            cacheData := (dataFindOrCreate bkt.cacheData asn ski a cr).1 })) := by
        constructor
        · refine updateBucketByAlgoID_pairwise _ a _ hslot1.1 ?_
          intro z hz
          show bkt.algoID = z.algoID
          rw [hbf.1, hz]
        · intro b1 hb1
          rcases updateBucketByAlgoID_mem _ a _ b1 hb1 with h2 | ⟨z, _, _, h3⟩
          · exact hslot1.2 b1 h2
          · subst h3
            exact dataFindOrCreate_pairwise bkt.cacheData asn ski a cr hbf.2
      have hnode2 : NodeSorted { node1 with
          as2 := as2Set node1.as2 (asn % 65536)
            (updateBucketByAlgoID (as2Get node1.as2 (asn % 65536)) a
              (fun _ => { bkt with
                cacheData := (dataFindOrCreate bkt.cacheData asn ski a cr).1 })) } := by
        intro p hp
        rcases as2Set_mem node1.as2 (asn % 65536) _ p hp with h2 | h2
        · exact hn1 p h2
        · rw [h2]
          exact hnewslot
      have hfinal : SortedCache (_SKI_CACHE.mk
          (updateNodeByUpper cache1.cacheNode (asn / 65536 % 65536)
            (fun _ => _SKI_CACHE_NODE.mk node1.upper
              (as2Set node1.as2 (asn % 65536)
                (updateBucketByAlgoID (as2Get node1.as2 (asn % 65536)) a
                  (fun _ => _SKI_CACHE_ALGO_ID.mk bkt.algoID
                    (dataFindOrCreate bkt.cacheData asn ski a cr).1)))))
          cache1.dataNodes) := by
        refine ⟨?_, ?_⟩
        · refine updateNodeByUpper_pairwise cache1.cacheNode _ _ hc1.1 ?_
          intro z hz
          show node1.upper = z.upper
          rw [hu1, hupper, hz]
        · intro x hx
          rcases updateNodeByUpper_mem cache1.cacheNode (asn / 65536 % 65536) _ x hx
            with h2 | ⟨z, hz1, hz2, h3⟩
          · exact hc1.2 x h2
          · rw [h3]; exact hnode2
      exact hfinal

lemma registerTriples_sorted_aux : ∀ (reqs : List (Nat × Nat × List Nat)) (c : _SKI_CACHE),
    SortedCache c →
    SortedCache (reqs.foldl (fun c r => (_getCacheData c r.1 r.2.2 r.2.1 true).1) c) := by
  intro reqs
  induction reqs with
  | nil => intro c hc; exact hc
  | cons r rest ih =>
    intro c hc
    exact ih _ (getCacheData_sorted c r.1 r.2.2 r.2.1 true hc)

/-- Claim C6 (confirmed): after any finite sequence of find-or-create
insertions of distinct (asn, algoID, ski) triples into the fresh cache -
the path registerUpdate drives through _getCacheData with create set - a
full traversal of the tree yields the upper-16-bit ASN nodes in strictly
ascending order, the algorithm ids strictly ascending within each ASN
slot, and the KeyRecord SKIs strictly ascending in byte-lexicographic
(memcmp) order within each algorithm bucket.  (The proof does not even
need the distinctness of the triples.) -/
theorem c6_tree_ordering (reqs : List (Nat × Nat × List Nat))
    (_hdist : reqs.Pairwise (fun r s => r ≠ s)) : SortedCache (registerTriples reqs) :=
  registerTriples_sorted_aux reqs ski_createCache (by decide)

/-- Witness for the claim C6 theorem at a concrete three-request list with
distinct triples spanning two upper nodes, two algorithm ids and two
SKIs. -/
theorem c6_tree_ordering_witness :
    SortedCache (registerTriples
      [(65534, 1, ski1), (65534, 1, List.replicate 20 0), (70000, 2, ski1)]) :=
  c6_tree_ordering [(65534, 1, ski1), (65534, 1, List.replicate 20 0), (70000, 2, ski1)]
    (by decide)
